import Mathlib

/-!
Shallow embedding of the request-handling core of the areion HTTP framework:
the trie router of `areion/default/router.py`, the response model of
`areion/core/response.py`, and the dispatch and keep-alive logic of
`areion/core/server.py`. Python dictionaries are embedded as insertion-ordered
association lists, Python strings as `String`, byte strings as their UTF-8
decoding, and fallible constructors as `Except`.
-/

/-- Lookup in a Python dict embedded as an insertion-ordered association list
with unique keys. -/
def assocGet {κ α : Type} [DecidableEq κ] : List (κ × α) → κ → Option α
  | [], _ => none
  | (k₀, v) :: t, k => if k₀ = k then some v else assocGet t k

/-- Python dict write `d[k] = v`: update the entry in place when the key is
present, otherwise append it, preserving insertion order. -/
def assocSet {κ α : Type} [DecidableEq κ] : List (κ × α) → κ → α → List (κ × α)
  | [], k, v => [(k, v)]
  | (k₀, v₀) :: t, k, v => if k₀ = k then (k, v) :: t else (k₀, v₀) :: assocSet t k v

/-- Python `str.split("/")` on the character list of a path, accumulating the
current segment in `acc`; empty segments are kept, as in Python. -/
def splitSegs : List Char → List Char → List String
  | [], acc => [String.mk acc.reverse]
  | c :: cs, acc =>
    if c = '/' then String.mk acc.reverse :: splitSegs cs []
    else splitSegs cs (c :: acc)

/-- Does `pat` match at the head of `l`. -/
def matchesAt : List Char → List Char → Bool
  | _, [] => true
  | [], _ :: _ => false
  | a :: as, b :: bs => a = b && matchesAt as bs

/-- Python `s.upper()` on the ASCII strings the router handles, as a
character map (the core `String.toUpper` walks byte positions and is opaque
to kernel reduction). -/
def strUpper (s : String) : String := String.mk (s.data.map Char.toUpper)

/-- Python `s.lower()` on the ASCII header values the server compares. -/
def strLower (s : String) : String := String.mk (s.data.map Char.toLower)

/-- Python `s.startswith(pat)`. -/
def strStartsWith (s pat : String) : Bool := matchesAt s.data pat.data

/-- Python `s[n:]`: drop the first `n` characters. -/
def strDrop (s : String) (n : Nat) : String := String.mk (s.data.drop n)

/-- The predicate used by `strip("/")`: the character is a slash. -/
def slashP (c : Char) : Bool := c = '/'

/-- Python `str.strip("/")`: drop every leading and every trailing slash
character. -/
def stripSlashes (cs : List Char) : List Char :=
  ((cs.dropWhile slashP).reverse.dropWhile slashP).reverse

/-- Embeds `Router._split_path` (router.py lines 123 to 125): strip slashes at
both ends, split on `/`, and keep only the non-empty segments. -/
def splitPath (p : String) : List String :=
  (splitSegs (stripSlashes p.data) []).filter (fun s => s ≠ "")

/-- Claim-side definition for C10: the sequence of non-empty slash-separated
segments of a raw path, with no stripping beforehand. -/
def nonEmptySegments (p : String) : List String :=
  (splitSegs p.data []).filter (fun s => s ≠ "")

/-- The per-method route entry stored at a terminal trie node
(router.py lines 38 to 43): the handler, the stored value of
`iscoroutinefunction(handler)`, and the route-scoped middleware list. -/
structure RouteEntry (H : Type) where
  handler : H
  is_async : Bool
  middlewares : List (H → H)

/-- Embeds the `TrieNode` class (router.py lines 171 to 176): a children dict
from segment strings (the dynamic branch lives under the key `":"`), a
per-method handler table, and the dynamic-branch bookkeeping fields. -/
inductive TrieNode (H : Type) where
  | mk (children : List (String × TrieNode H))
       (handler : List (String × RouteEntry H))
       (is_dynamic : Bool)
       (param_name : Option String)

/-- The children dict of a trie node. -/
def TrieNode.children {H : Type} : TrieNode H → List (String × TrieNode H)
  | .mk c _ _ _ => c

/-- The per-method handler table of a trie node. -/
def TrieNode.handler {H : Type} : TrieNode H → List (String × RouteEntry H)
  | .mk _ h _ _ => h

/-- The `is_dynamic` flag of a trie node. -/
def TrieNode.is_dynamic {H : Type} : TrieNode H → Bool
  | .mk _ _ d _ => d

/-- The `param_name` field of a trie node; `none` embeds Python `None`, the
value `TrieNode.__init__` gives it. -/
def TrieNode.param_name {H : Type} : TrieNode H → Option String
  | .mk _ _ _ p => p

/-- A freshly constructed `TrieNode()`: empty dicts, not dynamic, no
parameter name. -/
def TrieNode.empty {H : Type} : TrieNode H := .mk [] [] false none

/-- Embeds the `Router` object state (router.py lines 4 to 9). The unused
`self.middlewares` dict is omitted; nothing in the source ever reads it. -/
structure Router (H : Type) where
  root : TrieNode H
  allowed_methods : List String
  global_middlewares : List (H → H)

/-- A freshly constructed `Router()` (router.py `__init__`). -/
def Router.empty {H : Type} : Router H :=
  { root := TrieNode.empty
    allowed_methods := ["GET", "POST", "PUT", "DELETE", "PATCH"]
    global_middlewares := [] }

/-- Embeds the registration walk of `Router.add_route` (router.py lines 25
to 43). NOTE, faithfully to the source: for a dynamic segment the code first
reassigns `segment = ":"` and only then computes `param_name = segment[1:]`,
so the recorded parameter name is the empty string, and it is recorded on the
node that is current BEFORE descending (the parent), while the walk descends
into the `":"` child, whose own `param_name` is never written. -/
def insertRoute {H : Type} (h : H) (is_async : Bool) (methods : List String)
    (mws : List (H → H)) : TrieNode H → List String → TrieNode H
  | node, [] =>
    .mk node.children
      (methods.foldl (fun tbl m => assocSet tbl m ⟨h, is_async, mws⟩) node.handler)
      node.is_dynamic node.param_name
  | node, seg :: rest =>
    if strStartsWith seg ":" then
      let seg := ":"
      let child := (assocGet node.children seg).getD TrieNode.empty
      .mk (assocSet node.children seg (insertRoute h is_async methods mws child rest))
        node.handler true (some (strDrop seg 1))
    else
      let child := (assocGet node.children seg).getD TrieNode.empty
      .mk (assocSet node.children seg (insertRoute h is_async methods mws child rest))
        node.handler node.is_dynamic node.param_name

/-- Embeds `Router.add_route` (router.py lines 11 to 43). The `is_async`
argument carries the value of `iscoroutinefunction(handler)`, runtime
introspection on the Python callable that a shallow embedding takes as an
explicit input. Method names are upper-cased and filtered against
`allowed_methods`; an empty surviving list raises `ValueError`, embedded as
`Except.error`. `middlewares or []` maps `None` to the empty list. -/
def Router.add_route {H : Type} (r : Router H) (path : String) (handler : H)
    (is_async : Bool) (methods : List String)
    (middlewares : Option (List (H → H))) : Except String (Router H) :=
  let methods := (methods.map strUpper).filter
    (fun m => r.allowed_methods.contains m)
  if methods.isEmpty then
    .error "At least one valid HTTP method must be provided per route."
  else
    .ok { r with
            root := insertRoute handler is_async methods (middlewares.getD [])
              r.root (splitPath path) }

/-- Embeds `Router.add_global_middleware` (router.py lines 129 to 131):
append to the global list. -/
def Router.add_global_middleware {H : Type} (r : Router H) (mw : H → H) :
    Router H :=
  { r with global_middlewares := r.global_middlewares ++ [mw] }

/-- Embeds `Router._apply_middlewares` (router.py lines 133 to 163): copy the
global middleware list, extend it with the route middlewares, then rewrap the
handler iterating over the reversed list, so the first-registered global
middleware ends up outermost. The `async_wrapper` built for async handlers
forwards its arguments to the wrapped handler unchanged, so it is that
handler; `method` and `path` are accepted and unused, as in the source. -/
def Router.apply_middlewares {H : Type} (r : Router H) (info : RouteEntry H)
    (_method _path : String) : H :=
  let middlewares := r.global_middlewares ++ info.middlewares
  middlewares.foldr (fun m h => m h) info.handler

/-- Embeds the lookup walk of `Router.get_handler` (router.py lines 100 to
111) with explicit state threading: each visited child is re-installed into the
children dict of its parent, so any mutation the walk performed would be
visible in the returned root. A literal child is preferred; otherwise the `":"`
child is taken and the consumed segment is bound in `path_params` under that
child node its `param_name` key; with neither, the walk fails. -/
def lookupSt {H : Type} :
    TrieNode H → List String → List (Option String × String) →
      TrieNode H × Option (TrieNode H × List (Option String × String))
  | node, [], params => (node, some (node, params))
  | node, seg :: rest, params =>
    match assocGet node.children seg with
    | some child =>
      let walked := lookupSt child rest params
      (.mk (assocSet node.children seg walked.1) node.handler
        node.is_dynamic node.param_name, walked.2)
    | none =>
      match assocGet node.children ":" with
      | some param_node =>
        let walked := lookupSt param_node rest
          (assocSet params param_node.param_name seg)
        (.mk (assocSet node.children ":" walked.1) node.handler
          node.is_dynamic node.param_name, walked.2)
      | none => (node, none)

/-- Embeds `Router.get_handler` (router.py lines 91 to 121), state-threaded:
the first component is the router as the call leaves it, the second the
returned value. Both a path miss and a missing method at the terminal node
return the Python triple `(None, None, None)`, embedded as `none`; a hit
returns the middleware-wrapped handler, the bound path parameters, and the
stored `is_async` flag. -/
def Router.get_handler_st {H : Type} (r : Router H) (method path : String) :
    Router H × Option (H × List (Option String × String) × Bool) :=
  let walked := lookupSt r.root (splitPath path) []
  ({ r with root := walked.1 },
    match walked.2 with
    | some (node, path_params) =>
      match assocGet node.handler method with
      | some info =>
        some (r.apply_middlewares info method path, path_params, info.is_async)
      | none => none
    | none => none)

/-- The value `Router.get_handler` returns. -/
def Router.get_handler {H : Type} (r : Router H) (method path : String) :
    Option (H × List (Option String × String) × Bool) :=
  (r.get_handler_st method path).2

/-- Modelled from the spec: `core/server.py` lines 128 and 149 call
`self.router.get_allowed_methods(path)`, a method that `default/router.py`
under src does not define; spec section 4.2 says resolution must expose the
node its full registered-method set. Modelled as the method keys of the
terminal node of the path, in registration order, empty on a miss. -/
def Router.get_allowed_methods {H : Type} (r : Router H) (path : String) :
    List String :=
  match (lookupSt r.root (splitPath path) []).2 with
  | some (node, _) => node.handler.map (fun e => e.1)
  | none => []

/-- Response bodies as the code distinguishes them (response.py lines 36 to
51): a JSON-serializable mapping with string values, a text string, or a byte
string given by its UTF-8 decoding. Python `None` is `Option.none` around
this type. -/
inductive Body where
  | dict (entries : List (String × String))
  | str (s : String)
  | bytes (s : String)
  deriving DecidableEq

/-- Escape of one character inside a JSON string literal: quote and backslash
are escaped, other characters in our bodies pass through. -/
def jsonEscapeChar (c : Char) : String :=
  if c = '"' then "\\\"" else if c = '\\' then "\\\\" else String.mk [c]

/-- Escape of a JSON string literal body. -/
def jsonEscape (s : String) : String :=
  String.join (s.data.map jsonEscapeChar)

/-- Models Python `json.dumps` on a flat string-valued dict with the default
separators: comma-space between items and colon-space after each key. -/
def jsonDumps (entries : List (String × String)) : String :=
  "\x7b" ++ String.intercalate ", "
      (entries.map (fun kv => "\"" ++ jsonEscape kv.1 ++ "\": \"" ++ jsonEscape kv.2 ++ "\""))
    ++ "\x7d"

/-- Helper for `strContains`: search for `pat` at every position of the
haystack. -/
def strContainsAux : List Char → List Char → Bool
  | [], pat => pat.isEmpty
  | c :: cs, pat => matchesAt (c :: cs) pat || strContainsAux cs pat

/-- Python `needle in hay` on strings: substring containment. -/
def strContains (hay needle : String) : Bool :=
  strContainsAux hay.data needle.data

/-- The response value: status code, body, content type, and a header
mapping. The headers field is modelled from the spec: spec section 3 gives
Response a header mapping, the response tests under src pass `headers=` and
expect custom headers on the wire, and `core/server.py` both passes
`headers=` and assigns `response.headers[...]`, but `core/response.py` under
src carries no such attribute. -/
structure HttpResponse where
  status_code : Nat
  body : Option Body
  content_type : String
  headers : List (String × String)
  deriving DecidableEq

/-- Embeds `HttpResponse._infer_content_type` (response.py lines 18 to 34):
mapping bodies are JSON, strings are HTML when they contain the `<html`
marker and plain text otherwise, bytes are an octet stream, anything else is
plain text. -/
def inferContentType : Option Body → String
  | some (.dict _) => "application/json"
  | some (.str s) => if strContains s "<html" then "text/html" else "text/plain"
  | some (.bytes _) => "application/octet-stream"
  | none => "text/plain"

/-- Embeds `HttpResponse.__init__` (response.py lines 5 to 16) plus the
modelled headers mapping (see `HttpResponse`). Python evaluates
`content_type or self._infer_content_type(body)`, so both `None` and the
empty string fall back to inference; `headers` defaults to the empty
mapping. -/
def HttpResponse.init (body : Option Body) (status_code : Nat)
    (content_type : Option String) (headers : Option (List (String × String))) :
    HttpResponse :=
  { status_code := status_code
    body := body
    content_type :=
      match content_type with
      | none => inferContentType body
      | some s => if s = "" then inferContentType body else s
    headers := headers.getD [] }

/-- Embeds `HttpResponse._format_body` (response.py lines 36 to 51): dicts
are JSON-encoded, strings UTF-8 encoded, bytes passed through, and any other
body is `str(...)` of it, so a `None` body becomes the four bytes `None`. -/
def formatBody : Option Body → String
  | some (.dict d) => jsonDumps d
  | some (.str s) => s
  | some (.bytes b) => b
  | none => "None"

/-- Embeds `HttpResponse.format_response` (response.py lines 53 to 64), the
wire bytes as a UTF-8 string. The status line carries the literal reason
phrase `OK` for every status code, and only `Content-Type` and
`Content-Length` are emitted: the headers mapping is never serialized.
`Content-Length` is the byte length of the encoded body. -/
def HttpResponse.format_response (r : HttpResponse) : String :=
  let body := formatBody r.body
  "HTTP/1.1 " ++ toString r.status_code ++ " OK\r\n" ++
    ("Content-Type: " ++ r.content_type ++ "\r\n" ++ "Content-Length: " ++
      toString body.utf8ByteSize ++ "\r\n") ++ "\r\n" ++ body

/-- Modelled from the spec: `core/server.py`, `core/request_builder.py` and
`core/response_utils.py` all import `HTTP_STATUS_CODES` from
`core/response.py`, which does not define it under src. The standard reason
phrases of the status codes of the taxonomy of spec section 7. -/
def HTTP_STATUS_CODES (code : Nat) : String :=
  if code = 200 then "OK"
  else if code = 204 then "No Content"
  else if code = 400 then "Bad Request"
  else if code = 404 then "Not Found"
  else if code = 405 then "Method Not Allowed"
  else if code = 408 then "Request Timeout"
  else if code = 413 then "Payload Too Large"
  else if code = 500 then "Internal Server Error"
  else if code = 501 then "Not Implemented"
  else ""

/-- The request as `core/server.py` consumes it: method, path, the header
mapping with lower-cased keys (`RequestBuilder.on_header` lower-cases every
name), and the protocol version. The `http_version` field is modelled from
the spec (section 3: protocol version string): server.py line 95 reads
`request.http_version`, but the `HttpRequest` under src never sets that
attribute and `RequestBuilder` never forwards the version it parses. -/
structure HttpRequest where
  method : String
  path : String
  headers : List (String × String)
  http_version : String

/-- Embeds the keep-alive decision after dispatch
(`HttpServer._process_request`, server.py lines 93 to 103): lower-case the
value of the `connection` request header (empty when absent), close when it
is `close` or when the version is `HTTP/1.0` without an explicit
`keep-alive`, and record the decision in the `Connection` response header.
The returned Bool is the `keep_alive` loop flag: `while keep_alive`
terminates after the write when it is false; otherwise the parser is reset
and the loop awaits the next request. Writing `response.headers[...]` relies
on the modelled headers mapping. -/
def connectionUpdate (request : HttpRequest) (response : HttpResponse) :
    HttpResponse × Bool :=
  let connection_header := strLower ((assocGet request.headers "connection").getD "")
  if connection_header = "close" ∨
      (request.http_version = "HTTP/1.0" ∧ ¬(connection_header = "keep-alive")) then
    ({ response with headers := assocSet response.headers "Connection" "close" },
      false)
  else
    ({ response with headers := assocSet response.headers "Connection" "keep-alive" },
      true)

/-- Embeds the 408 branch of `_process_request` (server.py lines 105 to 113):
the response built when the read times out, before `format_response` puts it
on the wire; the `headers=` keyword it passes exists only on the modelled
constructor, not on the src `__init__`. -/
def timeoutResponse : HttpResponse :=
  HttpResponse.init (some (.str (HTTP_STATUS_CODES 408))) 408
    (some "text/plain") (some [("Connection", "close")])

/-- What a route handler returns to `_execute_handler`: an `HttpResponse`, or
any other value, which is coerced through `HttpResponse(body=response)`
(server.py lines 171 to 172). -/
inductive HandlerRet where
  | resp (r : HttpResponse)
  | value (b : Option Body)

/-- A server-side route handler, called as `handler(request, **path_params)`;
raising `HttpError(status_code, message)` is embedded as `Except.error` of
the pair. -/
def ServerHandler : Type :=
  HttpRequest → List (String × String) → Except (Nat × String) HandlerRet

/-- Keyword expansion `**path_params`: every key must be a string. The router
binds parameters under `param_name` keys of type `Option String`, and a
`None` key makes the call raise `TypeError: keywords must be strings`. -/
def stringKeyed : List (Option String × String) → Option (List (String × String))
  | [] => some []
  | (some k, v) :: t => (stringKeyed t).map (fun kw => (k, v) :: kw)
  | (none, _) :: _ => none

/-- Embeds `HttpServer._execute_handler` (server.py lines 164 to 185). The
handler, path parameters and `is_async` flag arrive as the possibly-`None`
triple `get_handler` produced. Calling a `None` handler, or unpacking a
`None` or `None`-keyed `path_params`, raises `TypeError`, which the bare
`except Exception` converts to a 500; an `HttpError` from the handler is
rendered with its own status and message; any other return value is coerced
into a response. Whether the handler is awaited or run on the executor does
not change the computed response. -/
def executeHandler (handler : Option ServerHandler) (request : HttpRequest)
    (path_params : Option (List (Option String × String)))
    (_is_async : Option Bool) : HttpResponse :=
  match handler, path_params with
  | some h, some ps =>
    match stringKeyed ps with
    | some kwargs =>
      match h request kwargs with
      | .ok (.resp r) => r
      | .ok (.value b) => HttpResponse.init b 200 none none
      | .error e => HttpResponse.init (some (.str e.2)) e.1 (some "text/plain") none
    | none =>
      HttpResponse.init (some (.str (HTTP_STATUS_CODES 500))) 500
        (some "text/plain") none
  | _, _ =>
    HttpResponse.init (some (.str (HTTP_STATUS_CODES 500))) 500
      (some "text/plain") none

/-- Embeds `HttpServer._handle_http_request` (server.py lines 124 to 162).
`get_handler` returns its triple and never raises `MethodNotAllowedError`, so
the 405 and Allow branch at server.py lines 127 to 134 is unreachable and has
no image here. `OPTIONS` answers 204 with an `Allow` header and no handler
call; `HEAD` runs `_execute_handler` on whatever `get_handler` resolved for
the literal method string `HEAD` and then clears the body; `CONNECT` answers
501; every other method runs `_execute_handler`. -/
def handleHttpRequest (router : Router ServerHandler) (request : HttpRequest) :
    HttpResponse :=
  let resolved := router.get_handler request.method request.path
  let handler := resolved.map (fun t => t.1)
  let path_params := resolved.map (fun t => t.2.1)
  let is_async := resolved.map (fun t => t.2.2)
  if request.method = "OPTIONS" then
    HttpResponse.init (some (.str "")) 204 (some "text/plain")
      (some [("Allow", String.intercalate ", " (router.get_allowed_methods request.path))])
  else if request.method = "HEAD" then
    let response := executeHandler handler request path_params is_async
    { response with body := some (.bytes "") }
  else if request.method = "CONNECT" then
    HttpResponse.init (some (.str (HTTP_STATUS_CODES 501))) 501
      (some "text/plain") none
  else
    executeHandler handler request path_params is_async

/-- The router of claim C1: a route registered as `/items/:id` for GET, with
the handler embedded as the string label `"h"`. Registration with `["GET"]`
always succeeds, so the error arm is never taken. -/
def itemsRouter : Router String :=
  match Router.empty.add_route "/items/:id" "h" false ["GET"] none with
  | .ok r => r
  | .error _ => Router.empty

/-- C1: the claim says resolving `GET /items/42` returns the registered
handler together with the binding `id = "42"`. On the code, the handler is
returned and the missing-segment and extra-segment paths do miss, but the
captured segment is bound under the Python key `None`: `add_route` stores the
parameter name (itself already clobbered to the empty string) on the parent
node, while `get_handler` reads `param_name` from the `":"` child, which is
never written. -/
theorem c1_dynamic_param_binding :
    itemsRouter.get_handler "GET" "/items/42" = some ("h", [(none, "42")], false) ∧
    itemsRouter.get_handler "GET" "/items" = none ∧
    itemsRouter.get_handler "GET" "/items/42/extra" = none :=
  ⟨by decide, by decide, by decide⟩

/-- The router of claim C2: `/test` registered for GET only. -/
def testRouter : Router String :=
  match Router.empty.add_route "/test" "h" false ["GET"] none with
  | .ok r => r
  | .error _ => Router.empty

/-- C2: the claim says a method miss at an existing node fails distinctly
from a path miss and exposes the registered-method set. On the code, with
only GET registered at `/test`, resolving `POST /test` (method miss) returns
exactly the same `(None, None, None)` as resolving `GET /missing` (path
miss): nothing distinguishes 405 from 404 and no method set is exposed, so
the Allow-header branch of `_handle_http_request` can never run. -/
theorem c2_method_miss_indistinguishable :
    testRouter.get_handler "POST" "/test" = none ∧
    testRouter.get_handler "GET" "/missing" = none ∧
    testRouter.get_handler "POST" "/test" = testRouter.get_handler "GET" "/missing" :=
  ⟨by decide, by decide, by decide⟩

/-- A middleware that records its label in the request trace before invoking
the handler it wraps. -/
def labelMw (name : String) (h : List String → List String) :
    List String → List String :=
  fun trace => h (trace ++ [name])

/-- A handler that records its own execution at the end of the trace. -/
def traceHandler : List String → List String :=
  fun trace => trace ++ ["handler"]

/-- The router of claim C3: global middlewares A then B, and `/p` registered
with route middleware C, all instrumented to record execution order. -/
def tracedRouter : Router (List String → List String) :=
  match ((Router.empty.add_global_middleware (labelMw "A")).add_global_middleware
      (labelMw "B")).add_route "/p" traceHandler false ["GET"] (some [labelMw "C"]) with
  | .ok r => r
  | .error _ => Router.empty

/-- C3: with global middlewares `[A, B]` in registration order and route
middlewares `[C]`, the handler `get_handler` returns is `A (B (C handler))`,
the first-registered global middleware outermost — and invoking it on a
request observes the execution order A, B, C, handler. -/
theorem c3_middleware_order :
    (∀ (H : Type) (A B C : H → H) (h : H),
      (((Router.empty.add_global_middleware A).add_global_middleware B).add_route
            "/p" h false ["GET"] (some [C])).map
          (fun r => r.get_handler "GET" "/p") =
        Except.ok (some (A (B (C h)), [], false))) ∧
    (tracedRouter.get_handler "GET" "/p").map (fun t => t.1 []) =
      some ["A", "B", "C", "handler"] := by
  constructor
  · intro H A B C h
    rfl
  · rfl

/-- C4: the claim says the status line carries the correct standard reason
phrase. On the code, `format_response` emits the literal reason `OK` for
every status code: a 404 response reads `HTTP/1.1 404 OK`, not
`HTTP/1.1 404 Not Found`. -/
theorem c4_reason_phrase_always_ok :
    (HttpResponse.init (some (.str "missing")) 404 (some "text/plain")
        none).format_response =
      "HTTP/1.1 404 OK\r\nContent-Type: text/plain\r\nContent-Length: 7\r\n\r\nmissing" := by
  decide

/-- Writing a key into a dict makes that key read back the written value. -/
theorem assocGet_assocSet_self {κ α : Type} [DecidableEq κ]
    (l : List (κ × α)) (k : κ) (v : α) :
    assocGet (assocSet l k v) k = some v := by
  induction l with
  | nil => simp [assocSet, assocGet]
  | cons hd tl ih =>
    obtain ⟨k₀, v₀⟩ := hd
    by_cases h : k₀ = k
    · simp [assocSet, assocGet, h]
    · simp [assocSet, assocGet, h, ih]

/-- Claim-side for C5: the client sent a `Connection` header whose
lower-cased value is `close`. -/
def clientRequestedClose (request : HttpRequest) : Prop :=
  strLower ((assocGet request.headers "connection").getD "") = "close"

/-- Claim-side for C5: the protocol version is `HTTP/1.0` and the client did
not send `Connection: keep-alive`. -/
def http10WithoutKeepAlive (request : HttpRequest) : Prop :=
  request.http_version = "HTTP/1.0" ∧
    ¬(strLower ((assocGet request.headers "connection").getD "") = "keep-alive")

/-- C5: after dispatch the `Connection` response header is set to `close`,
and the per-connection loop flag drops to false (terminating `while
keep_alive` after the write), exactly when the client asked to close or spoke
HTTP/1.0 without asking to keep alive; in every other case the header is set
to `keep-alive` and the loop continues with the parser reset. -/
theorem c5_connection_close_iff (request : HttpRequest) (response : HttpResponse) :
    ((assocGet (connectionUpdate request response).1.headers "Connection" = some "close" ∧
        (connectionUpdate request response).2 = false) ↔
      (clientRequestedClose request ∨ http10WithoutKeepAlive request)) ∧
    ((assocGet (connectionUpdate request response).1.headers "Connection" = some "keep-alive" ∧
        (connectionUpdate request response).2 = true) ↔
      ¬(clientRequestedClose request ∨ http10WithoutKeepAlive request)) := by
  have hne : ("close" : String) ≠ "keep-alive" := by decide
  by_cases h : clientRequestedClose request ∨ http10WithoutKeepAlive request
  · have hu : connectionUpdate request response =
        ({ response with headers := assocSet response.headers "Connection" "close" },
          false) := by
      simp only [clientRequestedClose, http10WithoutKeepAlive] at h
      simp only [connectionUpdate]
      rw [if_pos h]
    rw [hu]
    simp [assocGet_assocSet_self, h, hne]
  · have hu : connectionUpdate request response =
        ({ response with headers := assocSet response.headers "Connection" "keep-alive" },
          true) := by
      simp only [clientRequestedClose, http10WithoutKeepAlive] at h
      simp only [connectionUpdate]
      rw [if_neg h]
    rw [hu]
    simp [assocGet_assocSet_self, h, hne.symm]

/-- C6: the claim says timeout expiry sends a 408 response carrying
`Connection: close`. On the code, the wire bytes of the 408 timeout response,
as `format_response` under src emits them, carry no `Connection` header at
all (only `Content-Type` and `Content-Length` are ever serialized, and the
src `__init__` does not even accept the `headers=` keyword the server
passes), and the status line reads `408 OK`. The handler-free and
connection-terminating parts of the claim do hold: the timeout branch never
resolves a route and breaks the loop. -/
theorem c6_timeout_response_wire :
    timeoutResponse.format_response =
        "HTTP/1.1 408 OK\r\nContent-Type: text/plain\r\nContent-Length: 15\r\n\r\nRequest Timeout" ∧
    strContains timeoutResponse.format_response "Connection" = false :=
  ⟨by decide, by decide⟩

/-- A handler answering `200` with body `hello`, registered for GET in the
router of claim C7. -/
def okServerHandler : ServerHandler :=
  fun _ _ => .ok (.resp (HttpResponse.init (some (.str "hello")) 200 none none))

/-- The router of claim C7: `/x` registered for GET only (the only way
routes exist, since `allowed_methods` admits no other verbs than the five). -/
def headRouter : Router ServerHandler :=
  match Router.empty.add_route "/x" okServerHandler false ["GET"] none with
  | .ok r => r
  | .error _ => Router.empty

/-- C7: the claim says HEAD resolves and invokes the handler exactly as GET
would and strips the body. On the code, `_handle_http_request` resolves with
the literal method string `HEAD`, which `add_route` can never register
(`allowed_methods` is the five verbs), so the handler is `None`, the
`TypeError` inside `_execute_handler` becomes a 500, and the client gets a
500 with an emptied body instead of the handler response. The CONNECT half
of the claim holds: 501 without any handler call. -/
theorem c7_head_connect :
    handleHttpRequest headRouter
        { method := "HEAD", path := "/x", headers := [], http_version := "HTTP/1.1" } =
      { status_code := 500, body := some (.bytes ""), content_type := "text/plain",
        headers := [] } ∧
    handleHttpRequest headRouter
        { method := "CONNECT", path := "/x", headers := [], http_version := "HTTP/1.1" } =
      { status_code := 501, body := some (.str "Not Implemented"),
        content_type := "text/plain", headers := [] } :=
  ⟨by decide, by decide⟩

/-- C8: constructing a response from any mapping body with no explicit
content type and formatting it yields the status line, then a
`Content-Type: application/json` header, then a `Content-Length` header whose
value is the byte length of the JSON-encoded body, then the blank line, then
exactly those body bytes. -/
theorem c8_json_round_trip (entries : List (String × String)) (status_code : Nat) :
    (HttpResponse.init (some (.dict entries)) status_code none none).format_response =
      "HTTP/1.1 " ++ toString status_code ++ " OK\r\n" ++
        ("Content-Type: application/json" ++ "\r\n" ++ "Content-Length: " ++
          toString (jsonDumps entries).utf8ByteSize ++ "\r\n") ++ "\r\n" ++
        jsonDumps entries := by
  rfl

/-- A dict write that stores the value a key already holds leaves the dict
unchanged. -/
theorem assocSet_of_assocGet {κ α : Type} [DecidableEq κ]
    (l : List (κ × α)) (k : κ) (v : α) (h : assocGet l k = some v) :
    assocSet l k v = l := by
  induction l with
  | nil => simp [assocGet] at h
  | cons hd tl ih =>
    obtain ⟨k₀, v₀⟩ := hd
    simp only [assocGet] at h
    by_cases hk : k₀ = k
    · rw [if_pos hk] at h
      injection h with hv
      subst hk
      subst hv
      simp [assocSet]
    · rw [if_neg hk] at h
      simp [assocSet, hk, ih h]

/-- The traversal of `get_handler` leaves every node of the trie unchanged:
the state-threaded walk returns exactly the root it started from. -/
theorem lookupSt_fst {H : Type} (segs : List String) :
    ∀ (node : TrieNode H) (params : List (Option String × String)),
      (lookupSt node segs params).1 = node := by
  induction segs with
  | nil => intro node params; rfl
  | cons seg rest ih =>
    intro node params
    obtain ⟨c, hh, d, p⟩ := node
    cases hg : assocGet c seg with
    | some child =>
      simp [lookupSt, TrieNode.children, TrieNode.handler, TrieNode.is_dynamic,
        TrieNode.param_name, hg, ih child params,
        assocSet_of_assocGet c seg child hg]
    | none =>
      cases hg₂ : assocGet c ":" with
      | some pnode =>
        simp [lookupSt, TrieNode.children, TrieNode.handler, TrieNode.is_dynamic,
          TrieNode.param_name, hg, hg₂, ih pnode,
          assocSet_of_assocGet c ":" pnode hg₂]
      | none =>
        simp [lookupSt, TrieNode.children, hg, hg₂]


/-- C9: resolving a fixed router is observably pure. The state-threaded
embedding of `get_handler` returns the router unchanged (the walk performs no
write to any node), so calling it a second time with the same method and path
on the router it returned yields an equal result. -/
theorem c9_resolution_idempotent {H : Type} (r : Router H) (method path : String) :
    (r.get_handler_st method path).1 = r ∧
    ((r.get_handler_st method path).1.get_handler_st method path).2 =
      (r.get_handler_st method path).2 := by
  have h₁ : (r.get_handler_st method path).1 = r := by
    show { r with root := (lookupSt r.root (splitPath path) []).1 } = r
    rw [lookupSt_fst]
  exact ⟨h₁, by rw [h₁]⟩

/-- Dropping leading slashes before a Python split changes the split only by
empty segments, which the filter removes. -/
theorem filterSegs_dropWhile (cs : List Char) :
    (splitSegs (cs.dropWhile slashP) []).filter (fun s => s ≠ "") =
      (splitSegs cs []).filter (fun s => s ≠ "") := by
  induction cs with
  | nil => rfl
  | cons c cs ih =>
    by_cases hc : c = '/'
    · subst hc
      rw [List.dropWhile_cons]
      simp only [slashP, decide_True, if_true, ih]
      simp [splitSegs]
    · rw [List.dropWhile_cons]
      simp [slashP, hc]

/-- Splitting a run made only of slashes yields only empty segments beyond
the pending accumulator. -/
theorem filterSegs_slashTail (ys : List Char) :
    (∀ c ∈ ys, c = '/') → ∀ acc : List Char,
      (splitSegs ys acc).filter (fun s => s ≠ "") =
        [String.mk acc.reverse].filter (fun s => s ≠ "") := by
  induction ys with
  | nil => intro _ acc; rfl
  | cons y ys ih =>
    intro hys acc
    have hy : y = '/' := hys y (by simp)
    subst hy
    have hys₂ : ∀ c ∈ ys, c = '/' := fun c hc => hys c (by simp [hc])
    have hsplit : splitSegs ('/' :: ys) acc =
        String.mk acc.reverse :: splitSegs ys [] := by
      simp [splitSegs]
    rw [hsplit, List.filter_cons, List.filter_cons, ih hys₂ []]
    simp

/-- Appending trailing slashes to the input changes the split only by empty
segments, which the filter removes. -/
theorem filterSegs_append_slashes (ys : List Char) (hys : ∀ c ∈ ys, c = '/') :
    ∀ (xs acc : List Char),
      (splitSegs (xs ++ ys) acc).filter (fun s => s ≠ "") =
        (splitSegs xs acc).filter (fun s => s ≠ "") := by
  intro xs
  induction xs with
  | nil =>
    intro acc
    rw [List.nil_append]
    exact filterSegs_slashTail ys hys acc
  | cons x xs ih =>
    intro acc
    by_cases hx : x = '/'
    · subst hx
      have h₁ : splitSegs (('/' :: xs) ++ ys) acc =
          String.mk acc.reverse :: splitSegs (xs ++ ys) [] := by
        simp [splitSegs]
      have h₂ : splitSegs ('/' :: xs) acc =
          String.mk acc.reverse :: splitSegs xs [] := by
        simp [splitSegs]
      rw [h₁, h₂, List.filter_cons, List.filter_cons, ih []]
    · have h₁ : splitSegs ((x :: xs) ++ ys) acc = splitSegs (xs ++ ys) (x :: acc) := by
        simp [splitSegs, hx]
      have h₂ : splitSegs (x :: xs) acc = splitSegs xs (x :: acc) := by
        simp [splitSegs, hx]
      rw [h₁, h₂]
      exact ih (x :: acc)

/-- Dropping trailing slashes before a Python split changes the filtered
split not at all. -/
theorem filterSegs_stripBack (cs : List Char) :
    (splitSegs ((cs.reverse.dropWhile slashP).reverse) []).filter (fun s => s ≠ "") =
      (splitSegs cs []).filter (fun s => s ≠ "") := by
  have h₀ : List.takeWhile slashP cs.reverse ++ List.dropWhile slashP cs.reverse =
      cs.reverse := List.takeWhile_append_dropWhile slashP cs.reverse
  have h₁ : cs = (List.dropWhile slashP cs.reverse).reverse ++
      (List.takeWhile slashP cs.reverse).reverse := by
    rw [← List.reverse_append, h₀, List.reverse_reverse]
  have hmem : ∀ c ∈ (List.takeWhile slashP cs.reverse).reverse, c = '/' := by
    intro c hc
    rw [List.mem_reverse] at hc
    have hp := List.mem_takeWhile_imp hc
    simpa [slashP] using hp
  conv_rhs => rw [h₁]
  exact (filterSegs_append_slashes _ hmem _ []).symm

/-- The split `Router._split_path` computes equals the filtered raw split:
the strip of leading and trailing slashes only removes segments the filter
drops anyway. -/
theorem splitPath_eq_nonEmptySegments (p : String) :
    splitPath p = nonEmptySegments p := by
  unfold splitPath nonEmptySegments stripSlashes
  rw [filterSegs_stripBack, filterSegs_dropWhile]

/-- C10: for one method, two paths with the same sequence of non-empty
slash-separated segments are interchangeable, both for resolution and for
registration: leading, trailing and repeated slashes are ignored on both
sides, because every use of the path goes through `_split_path`. -/
theorem c10_slash_normalization (H : Type) (r : Router H) (method p₁ p₂ : String)
    (handler : H) (is_async : Bool) (methods : List String)
    (middlewares : Option (List (H → H)))
    (hseg : nonEmptySegments p₁ = nonEmptySegments p₂) :
    r.get_handler method p₁ = r.get_handler method p₂ ∧
    r.add_route p₁ handler is_async methods middlewares =
      r.add_route p₂ handler is_async methods middlewares := by
  have hs : splitPath p₁ = splitPath p₂ := by
    rw [splitPath_eq_nonEmptySegments, splitPath_eq_nonEmptySegments, hseg]
  constructor
  · simp only [Router.get_handler, Router.get_handler_st, Router.apply_middlewares, hs]
  · simp only [Router.add_route, hs]

/-- The router of the C10 witness: `/items` registered for GET. -/
def slashRouter : Router String :=
  match Router.empty.add_route "/items" "h" false ["GET"] none with
  | .ok r => r
  | .error _ => Router.empty

/-- Witness for C10 at the spec example: `/items/` and `//items` have the
same non-empty segments, so they resolve identically. -/
theorem c10_slash_normalization_witness :
    nonEmptySegments "/items/" = nonEmptySegments "//items" ∧
    slashRouter.get_handler "GET" "/items/" = slashRouter.get_handler "GET" "//items" :=
  ⟨by decide,
    (c10_slash_normalization String slashRouter "GET" "/items/" "//items" "h" false
      ["GET"] none (by decide)).1⟩
